import Mathlib

/-!
Verification development for the MemorAI client-side recognition engine
(the render-loop stabilization / placement code in `frontend/app/ar/page.tsx`).

The engine is shallowly embedded: the per-frame response handler is modelled
as a pure state-transition function.  Machine numbers (timestamps from
`performance.now()`, confidences, pixel coordinates) are modelled as `ℚ`;
JavaScript `Map`s are modelled as association lists with unique keys
(`Map.set` replaces in place, `Map.delete` removes, lookup finds the entry).
React state setters and the speech call are modelled as an explicit effect
list so that "the setter was invoked" is observable.  DOM reads that feed the
algorithm (card element size, its current `style.top`, canvas size) are
inputs of a per-frame environment record; DOM writes other than the tracked
state are outputs external to the model.
-/

/-- Tuning knob: show a name immediately when confidence is at least this
(source: `ACCEPT_CONF = 0.62`). -/
def ACCEPT_CONF : ℚ := 62 / 100

/-- Tuning knob: keep the last name briefly when it flickers to Unknown
(source: `HOLD_MS = 500`). -/
def HOLD_MS : ℚ := 500

/-- Tuning knob: 2-frame majority window (source: `MAJ_WIN = 2`). -/
def MAJ_WIN : Nat := 2

/-- Staleness window for per-track garbage collection (source: literal
`2000` in the prune loop). -/
def STALE_MS : ℚ := 2000

/-- Screen edge padding for the memory card (source: `PAD = 8`). -/
def PAD : ℚ := 8

/-- Desired gap between face and card (source: `SAFE_GAP = 16`). -/
def SAFE_GAP : ℚ := 16

/-- Cooldown between card side flips (source: `FLIP_COOLDOWN = 700`). -/
def FLIP_COOLDOWN : ℚ := 700

/-- Cooldown between voice announcements (source: `speakCooldownMs = 1200`). -/
def SPEAK_COOLDOWN : ℚ := 1200

/-- A bounding box `[x, y, w, h]`. -/
structure BBox where
  x : ℚ
  y : ℚ
  w : ℚ
  h : ℚ
deriving DecidableEq

/-- One detection of the recognizer response (source type `Detection`).
The `conf` field is declared `number` in the source; the defensive
`d.conf ?? 0` reads are therefore the identity and `conf` is total here. -/
structure Detection where
  track_id : Nat
  bbox : BBox
  name : String
  conf : ℚ
deriving DecidableEq

/-- Value type of the `trackState` map (source:
`{ name: string; conf: number; lastSeen: number }`). -/
structure TrackEntry where
  name : String
  conf : ℚ
  lastSeen : ℚ
deriving DecidableEq

/-- The card's horizontal side. -/
inductive Side where
  | left
  | right
deriving DecidableEq

/-- `side === "left" ? "right" : "left"`. -/
def flipSide : Side → Side
  | Side.left => Side.right
  | Side.right => Side.left

/-- Association-list lookup, the model of `Map.get` (keys are unique in a
JavaScript `Map`). -/
def lookupTrack {V : Type} : List (Nat × V) → Nat → Option V
  | [], _ => none
  | p :: ps, k => if p.1 = k then some p.2 else lookupTrack ps k

/-- Association-list insert/replace, the model of `Map.set`: an existing
key keeps its position and gets the new value, a new key is appended. -/
def setTrack {V : Type} : List (Nat × V) → Nat → V → List (Nat × V)
  | [], k, v => [(k, v)]
  | p :: ps, k, v => if p.1 = k then (k, v) :: ps else p :: setTrack ps k v

/-- Scale a bbox from send-image space to canvas space
(source: `scaleBBox`, `sx = W / sendW`, `sy = H / sendH`). -/
def scaleBBox (b : BBox) (W H sendW sendH : ℚ) : BBox :=
  let sx := W / sendW
  let sy := H / sendH
  ⟨b.x * sx, b.y * sy, b.w * sx, b.h * sy⟩

/-- Mirror a bbox horizontally once (source: `mirrorBBox`,
`xMir = W - (x + w)`). -/
def mirrorBBox (b : BBox) (W : ℚ) : BBox :=
  ⟨W - (b.x + b.w), b.y, b.w, b.h⟩

/-- One scalar step of the exponential moving average
(source: `prev + alpha * (box - prev)` inside `emaBox`). -/
def emaStep (alpha prev raw : ℚ) : ℚ :=
  prev + alpha * (raw - prev)

/-- The box smoother (source: `emaBox`): a track's first box is stored and
returned unblended, later boxes are blended component-wise with `emaStep`.
Returns the box to draw together with the updated `smoothBoxes` map.
The source gives `alpha` the default value `0.35` (`7/20`); the call site
never overrides it. -/
def emaBox (sb : List (Nat × BBox)) (tid : Nat) (box : BBox) (alpha : ℚ) :
    BBox × List (Nat × BBox) :=
  match lookupTrack sb tid with
  | none => (box, setTrack sb tid box)
  | some prev =>
    let out : BBox :=
      ⟨emaStep alpha prev.x box.x, emaStep alpha prev.y box.y,
       emaStep alpha prev.w box.w, emaStep alpha prev.h box.h⟩
    (out, setTrack sb tid out)

/-- Iterating the scalar EMA step with constant raw value `raw` and the
source's `alpha = 7/20`, starting from `p0`. -/
def emaIter (raw p0 : ℚ) : Nat → ℚ
  | 0 => p0
  | n + 1 => emaStep (7 / 20) (emaIter raw p0 n) raw

/-- Occurrences of `x` in `l` (the `hist.filter(v => v === x).length` of the
majority comparator). -/
def countIn (l : List String) (x : String) : Nat :=
  (l.filter (fun y => y = x)).length

/-- Stable insertion step: place `a` before the first element it is
less-or-equal to. -/
def insertLe {α : Type} (le : α → α → Bool) (a : α) : List α → List α
  | [] => [a]
  | b :: bs => if le a b then a :: b :: bs else b :: insertLe le a bs

/-- Stable insertion sort; with comparator `c`, JavaScript's (stable)
`Array.prototype.sort` puts `a` before `b` when `c(a, b) ≤ 0`, which is
the relation `le a b` here. -/
def isortBy {α : Type} (le : α → α → Bool) : List α → List α
  | [] => []
  | a :: as => insertLe le a (isortBy le as)

/-- The majority sort of a track history (source: `hist.sort((a, b) =>
count(b) - count(a))`): stable sort by descending occurrence count.
The source sorts the array in place, so this sorted list is also what the
history map keeps. -/
def majSort (l : List String) : List String :=
  isortBy (fun a b => decide (countIn l b ≤ countIn l a)) l

/-- `dets.filter(d => d.name !== "Unknown").sort((a, b) => b.conf - a.conf)[0]`:
the best non-Unknown detection, stable-sorted by descending confidence. -/
def bestOf (l : List Detection) : Option Detection :=
  (isortBy (fun a b => decide (b.conf ≤ a.conf))
    (l.filter (fun d => d.name ≠ "Unknown"))).head?

/-- The mutable refs and React state of the page component that the
response handler touches, bundled into one record. -/
structure EngineState where
  trackHistory : List (Nat × List String)
  trackState : List (Nat × TrackEntry)
  smoothBoxes : List (Nat × BBox)
  reqCounter : Nat
  lastHandledReq : Nat
  lastSpeakAt : ℚ
  lastNameShown : String
  cardSide : Side
  lastCardYUpdate : ℚ
  lastFlipAt : ℚ
  lastStatusRef : String
  status : String
  currentName : String
  confidence : ℚ
  caption : String
  relationship : String
  photoUrl : Option String
  photosCount : Option Nat
deriving DecidableEq

/-- The component's initial refs and state (source: `useRef` / `useState`
initial values). -/
def initState : EngineState where
  trackHistory := []
  trackState := []
  smoothBoxes := []
  reqCounter := 0
  lastHandledReq := 0
  lastSpeakAt := 0
  lastNameShown := "Unknown"
  cardSide := Side.right
  lastCardYUpdate := 0
  lastFlipAt := 0
  lastStatusRef := "boot"
  status := "boot"
  currentName := "Unknown"
  confidence := 0
  caption := ""
  relationship := ""
  photoUrl := none
  photosCount := none

/-- Observable side effects of one loop iteration: each React state setter
invocation and each speech trigger, in program order. -/
inductive Effect where
  | setStatusE (s : String)
  | setCurrentNameE (s : String)
  | setConfidenceE (q : ℚ)
  | setCaptionE (s : String)
  | setRelationshipE (s : String)
  | setPhotoUrlE (u : Option String)
  | setPhotosCountE (n : Option Nat)
  | speakE (text : String)
deriving DecidableEq

/-- Is the effect a speech trigger? -/
def isSpeakE : Effect → Bool
  | Effect.speakE _ => true
  | _ => false

/-- Number of utterances in an effect list. -/
def countSpeak (l : List Effect) : Nat :=
  (l.filter isSpeakE).length

/-- The `/memories` item the directory fetch resolved to, with JavaScript
optional fields as `Option` (`none` = absent). -/
structure MemItem where
  caption : Option String
  relationship : Option String
  photoUrls : Option (List String)
  photos : Option (List String)
  photoUrl : Option String
deriving DecidableEq

/-- Outcome of the directory fetch: 2xx with a parsed item, non-2xx
(`q.ok` false), or a thrown network/parse error (the `catch` path). -/
inductive FetchResult where
  | ok (item : MemItem)
  | httpFail
  | netFail
deriving DecidableEq

/-- JavaScript `a || b` for an optional string `a` (absent and the empty
string are both falsy). -/
def strOr (o : Option String) (d : String) : String :=
  match o with
  | some s => if s = "" then d else s
  | none => d

/-- `item.photoUrls || item.photos || (item.photoUrl ? [item.photoUrl] : [])`:
an array is always truthy (even when empty), a string only when non-empty. -/
def urlsOf (it : MemItem) : List String :=
  match it.photoUrls with
  | some l => l
  | none =>
    match it.photos with
    | some l => l
    | none =>
      match it.photoUrl with
      | some u => if u = "" then [] else [u]
      | none => []

/-- Per-frame inputs read from outside the tracked state: canvas and
send-image dimensions, the card element's measured size (`offsetWidth` /
`offsetHeight`, absent when the element is not mounted), its parsed
`style.top` (`none` when `parseFloat` is not finite, e.g. the initial
`calc(...)` value), whether the card element is mounted, and the outcome
the directory fetch would resolve to this frame. -/
structure FrameEnv where
  canvasW : ℚ
  canvasH : ℚ
  sendW : ℚ
  sendH : ℚ
  cardW : Option ℚ
  cardH : Option ℚ
  styleTop : Option ℚ
  cardPresent : Bool
  fetchResult : FetchResult
deriving DecidableEq

/-- The display transform the draw loop feeds into the smoother and the
card engine: scale from send space to canvas space, then mirror once. -/
def renderBoxInput (env : FrameEnv) (b : BBox) : BBox :=
  mirrorBBox (scaleBBox b env.canvasW env.canvasH env.sendW env.sendH) env.canvasW

/-- `safeSetStatus` (source): invoke the `setStatus` setter only when the
string differs from the one last written. -/
def safeSetStatus (st : EngineState) (s : String) : EngineState × List Effect :=
  if st.lastStatusRef ≠ s then
    ({ st with lastStatusRef := s, status := s }, [Effect.setStatusE s])
  else (st, [])

/-- The candidate label before hysteresis (source: `(d.conf ?? 0) >=
ACCEPT_CONF ? d.name : maj`), where `histNew` is the track's history after
this frame's append/evict. -/
def candidateLabel (histNew : List String) (d : Detection) : String :=
  if ACCEPT_CONF ≤ d.conf then d.name else (majSort histNew).headD ""

/-- Result of stabilizing one detection. -/
structure StabResult where
  hist : List (Nat × List String)
  tstate : List (Nat × TrackEntry)
  det : Detection
deriving DecidableEq

/-- The track history after this frame's append/evict (source:
`hist.push(d.name); if (hist.length > MAJ_WIN) hist.shift()`). -/
def histAfter (th : List (Nat × List String)) (d : Detection) : List String :=
  let hist0 := (lookupTrack th d.track_id).getD []
  let hist1 := hist0 ++ [d.name]
  if MAJ_WIN < hist1.length then hist1.drop 1 else hist1

/-- One iteration of the stabilization loop (source: the `for (const d of
dets)` body): append the raw name to the track history and evict the
oldest entry beyond `MAJ_WIN`, early-accept on confidence or take the
2-frame majority, hold a recent non-Unknown name on a flicker to Unknown,
then commit label/confidence/timestamp and overwrite the detection's name.
The source's in-place `hist.sort` means the stored history is the majority-
sorted list (a no-op reordering for the reachable lengths of at most 2). -/
def stabilizeStep (th : List (Nat × List String)) (ts : List (Nat × TrackEntry))
    (now : ℚ) (d : Detection) : StabResult :=
  let hist2 := histAfter th d
  let stored := majSort hist2
  let cand := candidateLabel hist2 d
  let committed :=
    match lookupTrack ts d.track_id with
    | some prev =>
      if cand = "Unknown" ∧ prev.name ≠ "Unknown" ∧ now - prev.lastSeen < HOLD_MS
      then prev.name else cand
    | none => cand
  { hist := setTrack th d.track_id stored
    tstate := setTrack ts d.track_id ⟨committed, d.conf, now⟩
    det := { d with name := committed } }

/-- The per-frame garbage collection (source: the `for (const [tid, st] of
trackState)` prune loop): every track whose state entry has
`now - lastSeen > 2000` is deleted from `trackState`, and its id is also
deleted from `trackHistory` and `smoothBoxes`. -/
def pruneStale (ts : List (Nat × TrackEntry)) (th : List (Nat × List String))
    (sb : List (Nat × BBox)) (now : ℚ) :
    List (Nat × TrackEntry) × List (Nat × List String) × List (Nat × BBox) :=
  let staleIds := (ts.filter (fun p => decide (STALE_MS < now - p.2.lastSeen))).map (fun p => p.1)
  (ts.filter (fun p => !decide (STALE_MS < now - p.2.lastSeen)),
   th.filter (fun p => !(staleIds.contains p.1)),
   sb.filter (fun p => !(staleIds.contains p.1)))

/-- The card element's width and height, defaulting like the source's
`cardElRef.current?.offsetWidth ?? 320` / `... ?? 260`. -/
def cardDims (env : FrameEnv) : ℚ × ℚ :=
  (env.cardW.getD 320, env.cardH.getD 260)

/-- `topNow` (source): the parsed `style.top` when finite, otherwise a top
that centers the card on the face, clamped to the viewport. -/
def topNowOf (env : FrameEnv) (face : BBox) : ℚ :=
  match env.styleTop with
  | some y => y
  | none =>
    max PAD (min (face.y + face.h / 2 - (cardDims env).2 / 2)
      (env.canvasH - (cardDims env).2 - PAD))

/-- `leftNow` (source): the card's x for the current side. -/
def leftNowOf (env : FrameEnv) (side : Side) : ℚ :=
  if side = Side.left then PAD else env.canvasW - (cardDims env).1 - PAD

/-- The axis-aligned near-overlap test of the source (`intersects`):
true unless the rectangles are separated by more than `gap` on some axis. -/
def rectsNear (card face : BBox) (gap : ℚ) : Bool :=
  !(decide (card.x + card.w < face.x - gap) || decide (face.x + face.w < card.x - gap)
    || decide (card.y + card.h < face.y - gap) || decide (face.y + face.h < card.y - gap))

/-- The source's `intersects` value for the current state and frame. -/
def intersectsNow (st : EngineState) (env : FrameEnv) (face : BBox) : Bool :=
  rectsNear
    ⟨leftNowOf env st.cardSide, topNowOf env face, (cardDims env).1, (cardDims env).2⟩
    face SAFE_GAP

/-- The card placement section of the loop (source lines «Avoid covering
face …» through the snap-side fallback), for a frame with a best detection
whose scaled+mirrored box is `face` and stabilized name is `bestName`:
flip the side when the face is near the card and the flip cooldown has
elapsed, record the vertical-nudge write time under its 90 ms throttle,
then snap the side away from the face when the best name changed.  The
computed `left`/`top` pixel values are written to the DOM and are not part
of the tracked state. -/
def cardAndSnap (st : EngineState) (now : ℚ) (env : FrameEnv) (face : BBox)
    (bestName : String) : EngineState :=
  let st1 :=
    if intersectsNow st env face ∧ FLIP_COOLDOWN < now - st.lastFlipAt then
      { st with cardSide := flipSide st.cardSide, lastFlipAt := now }
    else st
  let st2 :=
    if env.cardPresent ∧ 90 < now - st1.lastCardYUpdate then
      { st1 with lastCardYUpdate := now }
    else st1
  if bestName ≠ st2.lastNameShown then
    { st2 with
      cardSide := if face.x + face.w / 2 < env.canvasW / 2 then Side.right else Side.left }
  else st2

/-- Effects of the directory-miss / error path (`setCaption("")` …). -/
def clearCardEffects : List Effect :=
  [Effect.setCaptionE "", Effect.setRelationshipE "",
   Effect.setPhotoUrlE none, Effect.setPhotosCountE none]

/-- The narration / status section of the loop (source: the
`if (best && best.name !== lastNameShown)` chain): on a new best name,
record it, report "recognized", publish name and confidence, resolve the
directory fetch into card content, and speak under the 1200 ms cooldown —
the last-spoken timestamp is set to the frame timestamp in the same step
that triggers speech; on losing the best detection after a known name,
reset the published state once and report "searching"; with no best
detection and nothing shown, only report "searching". -/
def narrationStep (st : EngineState) (now : ℚ) (bestD : Option Detection)
    (fr : FetchResult) : EngineState × List Effect :=
  match bestD with
  | some b =>
    if b.name ≠ st.lastNameShown then
      let st1 := { st with lastNameShown := b.name }
      let r2 := safeSetStatus st1 "recognized"
      let st3 := { r2.1 with currentName := b.name, confidence := b.conf }
      let e3 := r2.2 ++ [Effect.setCurrentNameE b.name, Effect.setConfidenceE b.conf]
      match fr with
      | FetchResult.ok it =>
        let cap := strOr it.caption ("A favorite memory with " ++ b.name ++ ".")
        let rel := strOr it.relationship ""
        let urls := urlsOf it
        let st4 := { st3 with
          caption := cap
          relationship := rel
          photoUrl := urls.head?
          photosCount := some urls.length }
        let e4 := e3 ++ [Effect.setCaptionE cap, Effect.setRelationshipE rel,
                         Effect.setPhotoUrlE urls.head?,
                         Effect.setPhotosCountE (some urls.length)]
        if SPEAK_COOLDOWN < now - st4.lastSpeakAt then
          ({ st4 with lastSpeakAt := now },
           e4 ++ [Effect.speakE ("This is " ++ b.name ++ ". " ++ cap)])
        else (st4, e4)
      | FetchResult.httpFail =>
        ({ st3 with
           caption := ""
           relationship := ""
           photoUrl := none
           photosCount := none }, e3 ++ clearCardEffects)
      | FetchResult.netFail =>
        ({ st3 with
           caption := ""
           relationship := ""
           photoUrl := none
           photosCount := none }, e3 ++ clearCardEffects)
    else (st, [])
  | none =>
    if st.lastNameShown ≠ "Unknown" then
      let st1 := { st with
        lastNameShown := "Unknown"
        currentName := "Unknown"
        caption := ""
        relationship := ""
        photoUrl := none
        photosCount := none }
      let e1 := [Effect.setCurrentNameE "Unknown"] ++ clearCardEffects
      let r2 := safeSetStatus st1 "searching"
      (r2.1, e1 ++ r2.2)
    else safeSetStatus st "searching"

/-- Processing of an applied (non-stale, successful) response's detection
list at frame time `now` (source: the loop body after the epoch gate):
stabilize each detection in order, prune stale tracks, smooth each box
through `scaleBBox` → `mirrorBBox` → `emaBox`, pick the best non-Unknown
detection, run card placement for it, then narration/status. -/
def processDets (st : EngineState) (now : ℚ) (dets : List Detection)
    (env : FrameEnv) : EngineState × List Effect :=
  let stab := dets.foldl
    (fun (acc : (List (Nat × List String)) × (List (Nat × TrackEntry)) × List Detection) d =>
      let r := stabilizeStep acc.1 acc.2.1 now d
      (r.hist, r.tstate, acc.2.2 ++ [r.det]))
    (st.trackHistory, st.trackState, [])
  let pruned := pruneStale stab.2.1 stab.1 st.smoothBoxes now
  let dets2 := stab.2.2
  let sb2 := dets2.foldl
    (fun sb d => (emaBox sb d.track_id (renderBoxInput env d.bbox) (7 / 20)).2)
    pruned.2.2
  let st1 := { st with
    trackHistory := pruned.2.1
    trackState := pruned.1
    smoothBoxes := sb2 }
  let best := bestOf dets2
  let st2 :=
    match best with
    | some b => cardAndSnap st1 now env (renderBoxInput env b.bbox) b.name
    | none => st1
  narrationStep st2 now best env.fetchResult

/-- A completed recognition response as classified by the loop. -/
inductive CvResponse where
  | httpError (code : Nat)
  | nonJson
  | okResp (payload : Option (List Detection))
  | netError
deriving DecidableEq

/-- Issuing a request (source: `const myReqId = ++reqCounter.current`). -/
def issueRequest (st : EngineState) : Nat × EngineState :=
  (st.reqCounter + 1, { st with reqCounter := st.reqCounter + 1 })

/-- Completion of the recognition request tagged `myReqId` (source: the
`try` body of the loop): transport and format errors report a status and
advance the handled marker, both only when the epoch is newer than the
last handled one; a successful response is discarded when its epoch is
not newer, and otherwise advances the marker and is processed; a thrown
network error reports `cv-unreachable` without touching the marker. -/
def handleResponse (st : EngineState) (myReqId : Nat) (resp : CvResponse)
    (now : ℚ) (env : FrameEnv) : EngineState × List Effect :=
  match resp with
  | CvResponse.httpError code =>
    if st.lastHandledReq < myReqId then
      let r := safeSetStatus st ("cv-http-" ++ toString code)
      ({ r.1 with lastHandledReq := myReqId }, r.2)
    else (st, [])
  | CvResponse.nonJson =>
    if st.lastHandledReq < myReqId then
      let r := safeSetStatus st "cv-nonjson"
      ({ r.1 with lastHandledReq := myReqId }, r.2)
    else (st, [])
  | CvResponse.okResp payload =>
    if myReqId ≤ st.lastHandledReq then (st, [])
    else processDets { st with lastHandledReq := myReqId } now (payload.getD []) env
  | CvResponse.netError => safeSetStatus st "cv-unreachable"

/-! ## Map lemmas -/

theorem lookupTrack_setTrack_self {V : Type} (m : List (Nat × V)) (k : Nat) (v : V) :
    lookupTrack (setTrack m k v) k = some v := by
  induction m with
  | nil => simp [setTrack, lookupTrack]
  | cons p ps ih =>
    by_cases h : p.1 = k
    · simp [setTrack, h, lookupTrack]
    · simp [setTrack, h, lookupTrack, ih]

theorem mem_of_lookupTrack {V : Type} {m : List (Nat × V)} {k : Nat} {v : V}
    (h : lookupTrack m k = some v) : (k, v) ∈ m := by
  induction m with
  | nil => simp [lookupTrack] at h
  | cons p ps ih =>
    rcases p with ⟨a, b⟩
    by_cases hk : a = k
    · subst hk
      simp [lookupTrack] at h
      subst h
      exact List.mem_cons_self _ _
    · simp [lookupTrack, hk] at h
      exact List.mem_cons_of_mem _ (ih h)

theorem lookupTrack_eq_none_of_not_mem {V : Type} {m : List (Nat × V)} {k : Nat}
    (h : ∀ v, (k, v) ∉ m) : lookupTrack m k = none := by
  induction m with
  | nil => simp [lookupTrack]
  | cons p ps ih =>
    rcases p with ⟨a, b⟩
    by_cases hk : a = k
    · subst hk
      exact absurd (List.mem_cons_self _ _) (h b)
    · simp [lookupTrack, hk]
      exact ih fun v hv => h v (List.mem_cons_of_mem _ hv)

theorem keys_nodup_mem_unique {V : Type} {m : List (Nat × V)} {k : Nat} {v w : V}
    (hnd : (m.map Prod.fst).Nodup) (hv : (k, v) ∈ m) (hw : (k, w) ∈ m) : v = w := by
  induction m with
  | nil => simp at hv
  | cons p ps ih =>
    simp only [List.map_cons, List.nodup_cons] at hnd
    rcases List.mem_cons.mp hv with hv1 | hv2
    · rcases List.mem_cons.mp hw with hw1 | hw2
      · rw [← hv1] at hw1
        exact (Prod.mk.injEq _ _ _ _ |>.mp hw1.symm).2
      · exfalso
        apply hnd.1
        rw [← hv1]
        exact List.mem_map.mpr ⟨(k, w), hw2, rfl⟩
    · rcases List.mem_cons.mp hw with hw1 | hw2
      · exfalso
        apply hnd.1
        rw [← hw1]
        exact List.mem_map.mpr ⟨(k, v), hv2, rfl⟩
      · exact ih hnd.2 hv2 hw2

/-! ## Claim theorems -/

/-- A fixed frame environment for concrete instantiations: a 1280×720
canvas fed from a 320×240 sample, card not yet mounted, directory
fetch failing. -/
def env0 : FrameEnv where
  canvasW := 1280
  canvasH := 720
  sendW := 320
  sendH := 240
  cardW := none
  cardH := none
  styleTop := none
  cardPresent := false
  fetchResult := FetchResult.httpFail

/-- C6: the display transform scales a bbox by the independent factors
`canvasW / sendW` and `canvasH / sendH` and then mirrors horizontally
exactly once via `x' = W - (x + w)`; in particular `[10, 10, 50, 50]` at
sample size 320×240 on a 1280×720 canvas lands at `(1040, 30, 200, 150)`. -/
theorem scale_then_mirror_once :
    (∀ (env : FrameEnv) (b : BBox),
      renderBoxInput env b =
        ⟨env.canvasW - (b.x * (env.canvasW / env.sendW) + b.w * (env.canvasW / env.sendW)),
         b.y * (env.canvasH / env.sendH),
         b.w * (env.canvasW / env.sendW),
         b.h * (env.canvasH / env.sendH)⟩)
    ∧ renderBoxInput env0 ⟨10, 10, 50, 50⟩ = ⟨1040, 30, 200, 150⟩ := by
  constructor
  · intro env b
    simp [renderBoxInput, mirrorBBox, scaleBBox]
  · simp only [renderBoxInput, mirrorBBox, scaleBBox, env0]
    norm_num

/-- A successful response whose epoch does not exceed the marker is
discarded unchanged (source: the `myReqId <= lastHandledReq.current`
early return). -/
theorem handleOk_stale (st : EngineState) (myReqId : Nat)
    (payload : Option (List Detection)) (now : ℚ) (env : FrameEnv)
    (h : myReqId ≤ st.lastHandledReq) :
    handleResponse st myReqId (CvResponse.okResp payload) now env = (st, []) := by
  simp [handleResponse, h]

/-- C1: a successful recognition response is applied exactly when its
epoch strictly exceeds the last-handled marker at completion time: a
stale response (epoch at most the marker — in particular one overtaken by
an applied higher-epoch response) leaves the whole engine state untouched
and produces no effects, and a fresh response advances the marker and is
processed. -/
theorem stale_response_discarded :
    ∀ (st : EngineState) (myReqId : Nat) (payload : Option (List Detection))
      (now : ℚ) (env : FrameEnv),
      (myReqId ≤ st.lastHandledReq →
        handleResponse st myReqId (CvResponse.okResp payload) now env = (st, []))
      ∧ (st.lastHandledReq < myReqId →
        handleResponse st myReqId (CvResponse.okResp payload) now env =
          processDets { st with lastHandledReq := myReqId } now (payload.getD []) env) := by
  intro st myReqId payload now env
  constructor
  · exact handleOk_stale st myReqId payload now env
  · intro h
    simp [handleResponse, Nat.not_le.mpr h]

theorem stale_response_discarded_witness :
    handleResponse initState 0 (CvResponse.okResp none) 0 env0 = (initState, [])
    ∧ handleResponse initState 1 (CvResponse.okResp none) 0 env0 =
        processDets { initState with lastHandledReq := 1 } 0 [] env0 :=
  ⟨(stale_response_discarded initState 0 none 0 env0).1 (by norm_num [initState]),
   (stale_response_discarded initState 1 none 0 env0).2 (by norm_num [initState])⟩

/-- C10: a transport-error or format-error response whose epoch exceeds
the last-handled marker advances the marker to its epoch (besides
recording the error status), so any response of epoch at most that value
— even a successful one — that completes afterwards is discarded without
being applied. -/
theorem error_response_advances_marker :
    ∀ (st : EngineState) (myReqId : Nat) (code : Nat) (now : ℚ) (env : FrameEnv),
      st.lastHandledReq < myReqId →
      ((handleResponse st myReqId (CvResponse.httpError code) now env).1.lastHandledReq
          = myReqId
        ∧ (handleResponse st myReqId (CvResponse.httpError code) now env).1.lastStatusRef
          = "cv-http-" ++ toString code
        ∧ (∀ (id2 : Nat) (payload : Option (List Detection)) (now2 : ℚ) (env2 : FrameEnv),
            id2 ≤ myReqId →
            handleResponse (handleResponse st myReqId (CvResponse.httpError code) now env).1
                id2 (CvResponse.okResp payload) now2 env2 =
              ((handleResponse st myReqId (CvResponse.httpError code) now env).1, [])))
      ∧ ((handleResponse st myReqId CvResponse.nonJson now env).1.lastHandledReq = myReqId
        ∧ (handleResponse st myReqId CvResponse.nonJson now env).1.lastStatusRef
          = "cv-nonjson"
        ∧ (∀ (id2 : Nat) (payload : Option (List Detection)) (now2 : ℚ) (env2 : FrameEnv),
            id2 ≤ myReqId →
            handleResponse (handleResponse st myReqId CvResponse.nonJson now env).1
                id2 (CvResponse.okResp payload) now2 env2 =
              ((handleResponse st myReqId CvResponse.nonJson now env).1, []))) := by
  intro st myReqId code now env h
  constructor
  · refine ⟨by simp [handleResponse, h], ?_, ?_⟩
    · by_cases hs : st.lastStatusRef = "cv-http-" ++ toString code <;>
        simp [handleResponse, h, safeSetStatus, hs]
    · intro id2 payload now2 env2 h2
      refine handleOk_stale _ id2 payload now2 env2 ?_
      have hmark :
          (handleResponse st myReqId (CvResponse.httpError code) now env).1.lastHandledReq
            = myReqId := by
        simp [handleResponse, h]
      rw [hmark]
      exact h2
  · refine ⟨by simp [handleResponse, h], ?_, ?_⟩
    · by_cases hs : st.lastStatusRef = "cv-nonjson" <;>
        simp [handleResponse, h, safeSetStatus, hs]
    · intro id2 payload now2 env2 h2
      refine handleOk_stale _ id2 payload now2 env2 ?_
      have hmark :
          (handleResponse st myReqId CvResponse.nonJson now env).1.lastHandledReq
            = myReqId := by
        simp [handleResponse, h]
      rw [hmark]
      exact h2

theorem error_response_advances_marker_witness :
    ((handleResponse initState 2 (CvResponse.httpError 500) 0 env0).1.lastHandledReq = 2
      ∧ (handleResponse initState 2 (CvResponse.httpError 500) 0 env0).1.lastStatusRef
        = "cv-http-" ++ toString 500
      ∧ (∀ (id2 : Nat) (payload : Option (List Detection)) (now2 : ℚ) (env2 : FrameEnv),
          id2 ≤ 2 →
          handleResponse (handleResponse initState 2 (CvResponse.httpError 500) 0 env0).1
              id2 (CvResponse.okResp payload) now2 env2 =
            ((handleResponse initState 2 (CvResponse.httpError 500) 0 env0).1, [])))
    ∧ ((handleResponse initState 2 CvResponse.nonJson 0 env0).1.lastHandledReq = 2
      ∧ (handleResponse initState 2 CvResponse.nonJson 0 env0).1.lastStatusRef = "cv-nonjson"
      ∧ (∀ (id2 : Nat) (payload : Option (List Detection)) (now2 : ℚ) (env2 : FrameEnv),
          id2 ≤ 2 →
          handleResponse (handleResponse initState 2 CvResponse.nonJson 0 env0).1
              id2 (CvResponse.okResp payload) now2 env2 =
            ((handleResponse initState 2 CvResponse.nonJson 0 env0).1, []))) :=
  error_response_advances_marker initState 2 500 0 env0 (by norm_num [initState])

/-- C3: a detection with confidence at least `ACCEPT_CONF` whose track has
no prior `trackState` entry commits that detection's raw name as the
stabilized label (whatever the track's history holds), and the new entry
records that name with the detection's confidence and the frame time. -/
theorem early_accept_commits_raw_name :
    ∀ (th : List (Nat × List String)) (ts : List (Nat × TrackEntry))
      (now : ℚ) (d : Detection),
      ACCEPT_CONF ≤ d.conf →
      lookupTrack ts d.track_id = none →
      (stabilizeStep th ts now d).det.name = d.name
      ∧ lookupTrack (stabilizeStep th ts now d).tstate d.track_id
          = some ⟨d.name, d.conf, now⟩ := by
  intro th ts now d hconf hnone
  have hcand : candidateLabel (histAfter th d) d = d.name := by
    simp [candidateLabel, hconf]
  constructor
  · simp [stabilizeStep, hnone, hcand]
  · simp [stabilizeStep, hnone, hcand, lookupTrack_setTrack_self]

theorem early_accept_commits_raw_name_witness :
    (stabilizeStep [] [] 0 ⟨1, ⟨0, 0, 1, 1⟩, "Carol", 7 / 10⟩).det.name = "Carol"
    ∧ lookupTrack (stabilizeStep [] [] 0 ⟨1, ⟨0, 0, 1, 1⟩, "Carol", 7 / 10⟩).tstate 1
        = some ⟨"Carol", 7 / 10, 0⟩ :=
  early_accept_commits_raw_name [] [] 0 ⟨1, ⟨0, 0, 1, 1⟩, "Carol", 7 / 10⟩
    (by norm_num [ACCEPT_CONF]) rfl

/-- An EMA iterate started at or below the raw value stays at or below it. -/
theorem emaIter_le_raw (raw p0 : ℚ) (h : p0 ≤ raw) :
    ∀ n, emaIter raw p0 n ≤ raw := by
  intro n
  induction n with
  | zero => exact h
  | succ n ih =>
    simp only [emaIter, emaStep]
    nlinarith

/-- An EMA iterate started at or above the raw value stays at or above it. -/
theorem emaIter_ge_raw (raw p0 : ℚ) (h : raw ≤ p0) :
    ∀ n, raw ≤ emaIter raw p0 n := by
  intro n
  induction n with
  | zero => exact h
  | succ n ih =>
    simp only [emaIter, emaStep]
    nlinarith

/-- C5: the box smoother seeds a new track with the raw box unchanged,
blends a known track component-wise as `prev + alpha * (raw - prev)` with
the source's `alpha = 7/20` (0.35) and stores the blended box as the new
running state; consequently, iterating the step on a constant raw value
moves monotonically toward that value and never overshoots it, from
either side. -/
theorem ema_seed_blend_monotone :
    (∀ (sb : List (Nat × BBox)) (tid : Nat) (box : BBox) (alpha : ℚ),
      lookupTrack sb tid = none →
      emaBox sb tid box alpha = (box, setTrack sb tid box))
    ∧ (∀ (sb : List (Nat × BBox)) (tid : Nat) (box : BBox) (alpha : ℚ) (prev : BBox),
      lookupTrack sb tid = some prev →
      (emaBox sb tid box alpha).1 =
        ⟨prev.x + alpha * (box.x - prev.x), prev.y + alpha * (box.y - prev.y),
         prev.w + alpha * (box.w - prev.w), prev.h + alpha * (box.h - prev.h)⟩
      ∧ lookupTrack (emaBox sb tid box alpha).2 tid = some (emaBox sb tid box alpha).1)
    ∧ (∀ (raw p0 : ℚ) (n : Nat),
      (p0 ≤ raw →
        emaIter raw p0 n ≤ emaIter raw p0 (n + 1) ∧ emaIter raw p0 n ≤ raw)
      ∧ (raw ≤ p0 →
        emaIter raw p0 (n + 1) ≤ emaIter raw p0 n ∧ raw ≤ emaIter raw p0 n)) := by
  refine ⟨?_, ?_, ?_⟩
  · intro sb tid box alpha hnone
    simp [emaBox, hnone]
  · intro sb tid box alpha prev hprev
    constructor
    · simp [emaBox, hprev, emaStep]
    · simp [emaBox, hprev, lookupTrack_setTrack_self]
  · intro raw p0 n
    constructor
    · intro h
      have hle := emaIter_le_raw raw p0 h n
      constructor
      · simp only [emaIter, emaStep]
        nlinarith
      · exact hle
    · intro h
      have hge := emaIter_ge_raw raw p0 h n
      constructor
      · simp only [emaIter, emaStep]
        nlinarith
      · exact hge

theorem ema_seed_blend_monotone_witness :
    emaBox [] 1 ⟨2, 4, 6, 8⟩ (7 / 20) = (⟨2, 4, 6, 8⟩, setTrack [] 1 ⟨2, 4, 6, 8⟩)
    ∧ ((emaBox [(1, ⟨0, 0, 0, 0⟩)] 1 ⟨2, 4, 6, 8⟩ (7 / 20)).1 =
        ⟨0 + 7 / 20 * (2 - 0), 0 + 7 / 20 * (4 - 0),
         0 + 7 / 20 * (6 - 0), 0 + 7 / 20 * (8 - 0)⟩
      ∧ lookupTrack (emaBox [(1, ⟨0, 0, 0, 0⟩)] 1 ⟨2, 4, 6, 8⟩ (7 / 20)).2 1 =
          some (emaBox [(1, ⟨0, 0, 0, 0⟩)] 1 ⟨2, 4, 6, 8⟩ (7 / 20)).1)
    ∧ (emaIter 10 0 2 ≤ emaIter 10 0 3 ∧ emaIter 10 0 2 ≤ 10)
    ∧ (emaIter 0 10 3 ≤ emaIter 0 10 2 ∧ 0 ≤ emaIter 0 10 2) :=
  ⟨ema_seed_blend_monotone.1 [] 1 ⟨2, 4, 6, 8⟩ (7 / 20) rfl,
   ema_seed_blend_monotone.2.1 [(1, ⟨0, 0, 0, 0⟩)] 1 ⟨2, 4, 6, 8⟩ (7 / 20) ⟨0, 0, 0, 0⟩
     (by simp [lookupTrack]),
   (ema_seed_blend_monotone.2.2 10 0 2).1 (by norm_num),
   (ema_seed_blend_monotone.2.2 0 10 2).2 (by norm_num)⟩

/-- C4: after the per-frame garbage-collection step at time `now`, a track
whose `trackState` entry has `now - lastSeen > 2000` is absent from all
three per-track maps; and a detection arriving for a track id absent from
all three maps is processed as brand new: its history is just the raw
name, the committed label is the raw name (no held previous name exists),
and the smoother seeds the raw display box unblended. -/
theorem prune_then_fresh_restart :
    (∀ (ts : List (Nat × TrackEntry)) (th : List (Nat × List String))
      (sb : List (Nat × BBox)) (now : ℚ) (tid : Nat) (e : TrackEntry),
      (ts.map Prod.fst).Nodup →
      lookupTrack ts tid = some e →
      STALE_MS < now - e.lastSeen →
      lookupTrack (pruneStale ts th sb now).1 tid = none
      ∧ lookupTrack (pruneStale ts th sb now).2.1 tid = none
      ∧ lookupTrack (pruneStale ts th sb now).2.2 tid = none)
    ∧ (∀ (th : List (Nat × List String)) (ts : List (Nat × TrackEntry))
      (now : ℚ) (d : Detection),
      lookupTrack th d.track_id = none →
      lookupTrack ts d.track_id = none →
      (stabilizeStep th ts now d).det.name = d.name
      ∧ lookupTrack (stabilizeStep th ts now d).hist d.track_id = some [d.name]
      ∧ lookupTrack (stabilizeStep th ts now d).tstate d.track_id
          = some ⟨d.name, d.conf, now⟩)
    ∧ (∀ (sb : List (Nat × BBox)) (tid : Nat) (box : BBox) (alpha : ℚ),
      lookupTrack sb tid = none →
      (emaBox sb tid box alpha).1 = box
      ∧ lookupTrack (emaBox sb tid box alpha).2 tid = some box) := by
  refine ⟨?_, ?_, ?_⟩
  · intro ts th sb now tid e hnd hts hstale
    have hmem : (tid, e) ∈ ts := mem_of_lookupTrack hts
    have hmemStale : tid ∈ (ts.filter (fun p => decide (STALE_MS < now - p.2.lastSeen))).map
        (fun p => p.1) := by
      refine List.mem_map.mpr ⟨(tid, e), ?_, rfl⟩
      exact List.mem_filter.mpr ⟨hmem, by simpa using hstale⟩
    refine ⟨?_, ?_, ?_⟩
    · refine lookupTrack_eq_none_of_not_mem fun v hv => ?_
      simp only [pruneStale] at hv
      have hv2 := List.mem_filter.mp hv
      have : v = e := keys_nodup_mem_unique hnd hv2.1 hmem
      subst this
      simp [hstale] at hv2
    · refine lookupTrack_eq_none_of_not_mem fun v hv => ?_
      simp only [pruneStale] at hv
      have hv2 := List.mem_filter.mp hv
      have : ¬ tid ∈ (ts.filter (fun p => decide (STALE_MS < now - p.2.lastSeen))).map
          (fun p => p.1) := by
        simpa using hv2.2
      exact this hmemStale
    · refine lookupTrack_eq_none_of_not_mem fun v hv => ?_
      simp only [pruneStale] at hv
      have hv2 := List.mem_filter.mp hv
      have : ¬ tid ∈ (ts.filter (fun p => decide (STALE_MS < now - p.2.lastSeen))).map
          (fun p => p.1) := by
        simpa using hv2.2
      exact this hmemStale
  · intro th ts now d hth hts
    have hhist : histAfter th d = [d.name] := by
      simp [histAfter, hth, MAJ_WIN]
    have hcand : candidateLabel (histAfter th d) d = d.name := by
      by_cases hc : ACCEPT_CONF ≤ d.conf <;>
        simp [candidateLabel, hc, hhist, majSort, isortBy, insertLe]
    refine ⟨?_, ?_, ?_⟩
    · simp [stabilizeStep, hts, hcand]
    · simp [stabilizeStep, hhist, majSort, isortBy, insertLe, lookupTrack_setTrack_self]
    · simp [stabilizeStep, hts, hcand, lookupTrack_setTrack_self]
  · intro sb tid box alpha hnone
    exact ⟨by simp [emaBox, hnone], by simp [emaBox, hnone, lookupTrack_setTrack_self]⟩

theorem prune_then_fresh_restart_witness :
    (lookupTrack (pruneStale [(7, ⟨"Bob", 1 / 2, 0⟩)] [(7, ["Bob"])]
        [(7, ⟨1, 1, 1, 1⟩)] 2500).1 7 = none
      ∧ lookupTrack (pruneStale [(7, ⟨"Bob", 1 / 2, 0⟩)] [(7, ["Bob"])]
          [(7, ⟨1, 1, 1, 1⟩)] 2500).2.1 7 = none
      ∧ lookupTrack (pruneStale [(7, ⟨"Bob", 1 / 2, 0⟩)] [(7, ["Bob"])]
          [(7, ⟨1, 1, 1, 1⟩)] 2500).2.2 7 = none)
    ∧ ((stabilizeStep [] [] 3000 ⟨7, ⟨0, 0, 1, 1⟩, "Bob", 1 / 2⟩).det.name = "Bob"
      ∧ lookupTrack (stabilizeStep [] [] 3000 ⟨7, ⟨0, 0, 1, 1⟩, "Bob", 1 / 2⟩).hist 7
          = some ["Bob"]
      ∧ lookupTrack (stabilizeStep [] [] 3000 ⟨7, ⟨0, 0, 1, 1⟩, "Bob", 1 / 2⟩).tstate 7
          = some ⟨"Bob", 1 / 2, 3000⟩)
    ∧ ((emaBox [] 7 ⟨5, 6, 7, 8⟩ (7 / 20)).1 = ⟨5, 6, 7, 8⟩
      ∧ lookupTrack (emaBox [] 7 ⟨5, 6, 7, 8⟩ (7 / 20)).2 7 = some ⟨5, 6, 7, 8⟩) :=
  ⟨prune_then_fresh_restart.1 [(7, ⟨"Bob", 1 / 2, 0⟩)] [(7, ["Bob"])]
      [(7, ⟨1, 1, 1, 1⟩)] 2500 7 ⟨"Bob", 1 / 2, 0⟩ (by simp) rfl
      (by norm_num [STALE_MS]),
   prune_then_fresh_restart.2.1 [] [] 3000 ⟨7, ⟨0, 0, 1, 1⟩, "Bob", 1 / 2⟩ rfl rfl,
   prune_then_fresh_restart.2.2 [] 7 ⟨5, 6, 7, 8⟩ (7 / 20) rfl⟩

/-- C7: when the best face's box is near-overlapping the card's current
rectangle (expanded by the safety gap), the best identity is unchanged,
and more than the flip cooldown has passed since the last recorded flip,
the card placement step toggles the side exactly once and records the
flip time; on any later frame within the cooldown of that recorded flip
(identity still unchanged) the side is not toggled again, whether or not
the face still overlaps. -/
theorem card_flips_once_per_cooldown :
    (∀ (st : EngineState) (now : ℚ) (env : FrameEnv) (face : BBox) (bestName : String),
      intersectsNow st env face = true →
      FLIP_COOLDOWN < now - st.lastFlipAt →
      bestName = st.lastNameShown →
      (cardAndSnap st now env face bestName).cardSide = flipSide st.cardSide
      ∧ (cardAndSnap st now env face bestName).lastFlipAt = now)
    ∧ (∀ (st : EngineState) (now : ℚ) (env : FrameEnv) (face : BBox) (bestName : String),
      now - st.lastFlipAt ≤ FLIP_COOLDOWN →
      bestName = st.lastNameShown →
      (cardAndSnap st now env face bestName).cardSide = st.cardSide
      ∧ (cardAndSnap st now env face bestName).lastFlipAt = st.lastFlipAt) := by
  constructor
  · intro st now env face bestName hint hcool hname
    have hcond : (intersectsNow st env face : Prop)
        ∧ FLIP_COOLDOWN < now - st.lastFlipAt := ⟨by simp [hint], hcool⟩
    subst hname
    simp only [cardAndSnap, if_pos hcond]
    split_ifs <;> simp_all
  · intro st now env face bestName hcool hname
    have hcond : ¬ ((intersectsNow st env face : Prop)
        ∧ FLIP_COOLDOWN < now - st.lastFlipAt) := by
      rintro ⟨-, h⟩
      linarith
    subst hname
    simp only [cardAndSnap, if_neg hcond]
    split_ifs <;> simp_all

theorem card_flips_once_per_cooldown_witness :
    ((cardAndSnap initState 800 { env0 with styleTop := some 100 }
        ⟨900, 100, 200, 200⟩ "Unknown").cardSide = flipSide initState.cardSide
      ∧ (cardAndSnap initState 800 { env0 with styleTop := some 100 }
          ⟨900, 100, 200, 200⟩ "Unknown").lastFlipAt = 800)
    ∧ ((cardAndSnap { initState with lastFlipAt := 800 } 1400
        { env0 with styleTop := some 100 } ⟨900, 100, 200, 200⟩ "Unknown").cardSide
          = { initState with lastFlipAt := 800 }.cardSide
      ∧ (cardAndSnap { initState with lastFlipAt := 800 } 1400
          { env0 with styleTop := some 100 } ⟨900, 100, 200, 200⟩ "Unknown").lastFlipAt
          = { initState with lastFlipAt := 800 }.lastFlipAt) :=
  ⟨card_flips_once_per_cooldown.1 initState 800 { env0 with styleTop := some 100 }
      ⟨900, 100, 200, 200⟩ "Unknown"
      (by simp [intersectsNow, rectsNear, leftNowOf, topNowOf, cardDims, env0,
          initState, PAD, SAFE_GAP]
          norm_num)
      (by norm_num [FLIP_COOLDOWN, initState]) rfl,
   card_flips_once_per_cooldown.2 { initState with lastFlipAt := 800 } 1400
      { env0 with styleTop := some 100 } ⟨900, 100, 200, 200⟩ "Unknown"
      (by norm_num [FLIP_COOLDOWN, initState]) rfl⟩

/-- With a best detection whose name is what is already shown, the
narration section does nothing. -/
theorem narrationStep_same_name (st : EngineState) (now : ℚ) (b : Detection)
    (f : FetchResult) (h : b.name = st.lastNameShown) :
    narrationStep st now (some b) f = (st, []) := by
  simp [narrationStep, h]

/-- After the narration section runs with a best detection, the recorded
last-shown name is that detection's name. -/
theorem narrationStep_best_lastNameShown (st : EngineState) (now : ℚ)
    (b : Detection) (f : FetchResult) :
    (narrationStep st now (some b) f).1.lastNameShown = b.name := by
  by_cases h : b.name = st.lastNameShown
  · rw [narrationStep_same_name st now b f h]
    exact h.symm
  · rcases f with it | _ | _ <;>
      simp only [narrationStep, h, ne_eq, not_false_eq_true, if_true, safeSetStatus] <;>
      split_ifs <;> rfl

/-- One narration section run triggers at most one utterance. -/
theorem narrationStep_speak_le_one (st : EngineState) (now : ℚ) (b : Detection)
    (f : FetchResult) :
    countSpeak (narrationStep st now (some b) f).2 ≤ 1 := by
  by_cases h : b.name = st.lastNameShown
  · simp [narrationStep_same_name st now b f h, countSpeak]
  · rcases f with it | _ | _ <;>
      simp only [narrationStep, h, ne_eq, not_false_eq_true, if_true, safeSetStatus,
        clearCardEffects] <;>
      split_ifs <;>
      simp [countSpeak, isSpeakE]

/-- An utterance happens only under the cooldown test on the pre-frame
last-spoken time, and the same step writes the frame timestamp as the new
last-spoken time. -/
theorem narrationStep_speak_spec (st : EngineState) (now : ℚ) (b : Detection)
    (f : FetchResult) :
    countSpeak (narrationStep st now (some b) f).2 = 1 →
    (narrationStep st now (some b) f).1.lastSpeakAt = now
    ∧ SPEAK_COOLDOWN < now - st.lastSpeakAt := by
  by_cases h : b.name = st.lastNameShown
  · simp [narrationStep_same_name st now b f h, countSpeak]
  · rcases f with it | _ | _ <;>
      simp only [narrationStep, h, ne_eq, not_false_eq_true, if_true, safeSetStatus,
        clearCardEffects] <;>
      split_ifs <;>
      simp_all [countSpeak, isSpeakE]

/-- C8: when the best identity is "Bob" on two consecutive applied frames
(the second within the narration cooldown of the first), the narration
section triggers at most one utterance across the two frames; and
whenever an utterance is triggered, it happens only because the cooldown
had elapsed since the previous utterance, and the last-spoken timestamp
is simultaneously set to the triggering frame's timestamp (taken before
the directory fetch), not to a fetch-completion time. -/
theorem narration_two_bob_frames_one_utterance :
    ∀ (st : EngineState) (now1 now2 : ℚ) (d1 d2 : Detection) (f1 f2 : FetchResult),
      d1.name = "Bob" → d2.name = "Bob" → now2 - now1 ≤ SPEAK_COOLDOWN →
      countSpeak ((narrationStep st now1 (some d1) f1).2
          ++ (narrationStep (narrationStep st now1 (some d1) f1).1 now2 (some d2) f2).2)
        ≤ 1
      ∧ (countSpeak (narrationStep st now1 (some d1) f1).2 = 1 →
          (narrationStep st now1 (some d1) f1).1.lastSpeakAt = now1
          ∧ SPEAK_COOLDOWN < now1 - st.lastSpeakAt) := by
  intro st now1 now2 d1 d2 f1 f2 hb1 hb2 hcool
  have h2name : d2.name = (narrationStep st now1 (some d1) f1).1.lastNameShown := by
    rw [narrationStep_best_lastNameShown, hb1, hb2]
  rw [narrationStep_same_name _ now2 d2 f2 h2name]
  refine ⟨?_, narrationStep_speak_spec st now1 d1 f1⟩
  simpa using narrationStep_speak_le_one st now1 d1 f1

theorem narration_two_bob_frames_one_utterance_witness :
    countSpeak ((narrationStep initState 2000 (some ⟨1, ⟨0, 0, 1, 1⟩, "Bob", 4 / 5⟩)
          (FetchResult.ok ⟨none, none, none, none, none⟩)).2
        ++ (narrationStep (narrationStep initState 2000
              (some ⟨1, ⟨0, 0, 1, 1⟩, "Bob", 4 / 5⟩)
              (FetchResult.ok ⟨none, none, none, none, none⟩)).1 2500
            (some ⟨1, ⟨0, 0, 1, 1⟩, "Bob", 4 / 5⟩)
            (FetchResult.ok ⟨none, none, none, none, none⟩)).2) ≤ 1
    ∧ (countSpeak (narrationStep initState 2000 (some ⟨1, ⟨0, 0, 1, 1⟩, "Bob", 4 / 5⟩)
          (FetchResult.ok ⟨none, none, none, none, none⟩)).2 = 1 →
        (narrationStep initState 2000 (some ⟨1, ⟨0, 0, 1, 1⟩, "Bob", 4 / 5⟩)
            (FetchResult.ok ⟨none, none, none, none, none⟩)).1.lastSpeakAt = 2000
        ∧ SPEAK_COOLDOWN < 2000 - initState.lastSpeakAt) :=
  narration_two_bob_frames_one_utterance initState 2000 2500
    ⟨1, ⟨0, 0, 1, 1⟩, "Bob", 4 / 5⟩ ⟨1, ⟨0, 0, 1, 1⟩, "Bob", 4 / 5⟩
    (FetchResult.ok ⟨none, none, none, none, none⟩)
    (FetchResult.ok ⟨none, none, none, none, none⟩)
    rfl rfl (by norm_num [SPEAK_COOLDOWN])

/-- A frame with no best detection and nothing currently shown only
re-issues the (deduplicated) "searching" status, which is a no-op once
"searching" is already recorded. -/
theorem narrationStep_none_settled (st : EngineState) (t : ℚ) (f : FetchResult)
    (h1 : st.lastNameShown = "Unknown") (h2 : st.lastStatusRef = "searching") :
    narrationStep st t none f = (st, []) := by
  simp [narrationStep, h1, safeSetStatus, h2]

/-- C9: a frame whose detection list is empty yields no best detection and
runs only the narration/status section; when a non-unknown identity was
being shown, that first empty frame resets the published name and card
fields exactly once (five setter calls, plus a "searching" status write
only when the status was not already "searching"), and the two following
empty frames change nothing and invoke no setter at all; the status
setter writes only when the string differs from the last one written. -/
theorem searching_resets_once :
    (∀ (s : EngineState) (t : ℚ) (e : FrameEnv),
      processDets s t [] e =
        narrationStep { s with
          trackHistory := (pruneStale s.trackState s.trackHistory s.smoothBoxes t).2.1
          trackState := (pruneStale s.trackState s.trackHistory s.smoothBoxes t).1
          smoothBoxes := (pruneStale s.trackState s.trackHistory s.smoothBoxes t).2.2 }
          t none e.fetchResult)
    ∧ (∀ (st : EngineState) (t1 t2 t3 : ℚ) (f1 f2 f3 : FetchResult),
      st.lastNameShown ≠ "Unknown" →
      (narrationStep st t1 none f1).2 =
        [Effect.setCurrentNameE "Unknown", Effect.setCaptionE "",
         Effect.setRelationshipE "", Effect.setPhotoUrlE none,
         Effect.setPhotosCountE none]
        ++ (if st.lastStatusRef = "searching" then [] else [Effect.setStatusE "searching"])
      ∧ (narrationStep st t1 none f1).1.lastStatusRef = "searching"
      ∧ (narrationStep st t1 none f1).1.currentName = "Unknown"
      ∧ (narrationStep st t1 none f1).1.caption = ""
      ∧ narrationStep (narrationStep st t1 none f1).1 t2 none f2
          = ((narrationStep st t1 none f1).1, [])
      ∧ narrationStep (narrationStep (narrationStep st t1 none f1).1 t2 none f2).1
          t3 none f3
          = ((narrationStep (narrationStep st t1 none f1).1 t2 none f2).1, []))
    ∧ (∀ (s : EngineState) (x : String), s.lastStatusRef = x →
        safeSetStatus s x = (s, []))
    ∧ (∀ (s : EngineState) (x : String), s.lastStatusRef ≠ x →
        safeSetStatus s x =
          ({ s with lastStatusRef := x, status := x }, [Effect.setStatusE x])) := by
  refine ⟨?_, ?_, ?_, ?_⟩
  · intro s t e
    simp [processDets, bestOf, isortBy]
  · intro st t1 t2 t3 f1 f2 f3 hn
    by_cases hs : st.lastStatusRef = "searching"
    · have h1 : narrationStep st t1 none f1 =
          ({ st with
            lastNameShown := "Unknown"
            currentName := "Unknown"
            caption := ""
            relationship := ""
            photoUrl := none
            photosCount := none },
          [Effect.setCurrentNameE "Unknown", Effect.setCaptionE "",
           Effect.setRelationshipE "", Effect.setPhotoUrlE none,
           Effect.setPhotosCountE none]) := by
        simp [narrationStep, hn, clearCardEffects, safeSetStatus, hs]
      rw [h1]
      have h2 := narrationStep_none_settled ({ st with
            lastNameShown := "Unknown"
            currentName := "Unknown"
            caption := ""
            relationship := ""
            photoUrl := none
            photosCount := none }) t2 f2 rfl hs
      rw [h2]
      have h3 := narrationStep_none_settled ({ st with
            lastNameShown := "Unknown"
            currentName := "Unknown"
            caption := ""
            relationship := ""
            photoUrl := none
            photosCount := none }) t3 f3 rfl hs
      rw [h3]
      simp [hs]
    · have h1 : narrationStep st t1 none f1 =
          ({ st with
            lastNameShown := "Unknown"
            currentName := "Unknown"
            caption := ""
            relationship := ""
            photoUrl := none
            photosCount := none
            lastStatusRef := "searching"
            status := "searching" },
          [Effect.setCurrentNameE "Unknown", Effect.setCaptionE "",
           Effect.setRelationshipE "", Effect.setPhotoUrlE none,
           Effect.setPhotosCountE none, Effect.setStatusE "searching"]) := by
        simp [narrationStep, hn, clearCardEffects, safeSetStatus, hs]
      rw [h1]
      have h2 := narrationStep_none_settled ({ st with
            lastNameShown := "Unknown"
            currentName := "Unknown"
            caption := ""
            relationship := ""
            photoUrl := none
            photosCount := none
            lastStatusRef := "searching"
            status := "searching" }) t2 f2 rfl rfl
      rw [h2]
      have h3 := narrationStep_none_settled ({ st with
            lastNameShown := "Unknown"
            currentName := "Unknown"
            caption := ""
            relationship := ""
            photoUrl := none
            photosCount := none
            lastStatusRef := "searching"
            status := "searching" }) t3 f3 rfl rfl
      rw [h3]
      simp [hs]
  · intro s x h
    simp [safeSetStatus, h]
  · intro s x h
    simp [safeSetStatus, h]

theorem searching_resets_once_witness :
    processDets initState 0 [] env0 =
      narrationStep { initState with
        trackHistory :=
          (pruneStale initState.trackState initState.trackHistory
            initState.smoothBoxes 0).2.1
        trackState :=
          (pruneStale initState.trackState initState.trackHistory
            initState.smoothBoxes 0).1
        smoothBoxes :=
          (pruneStale initState.trackState initState.trackHistory
            initState.smoothBoxes 0).2.2 }
        0 none env0.fetchResult
    ∧ ((narrationStep { initState with lastNameShown := "Alice" } 100 none
          FetchResult.httpFail).2 =
        [Effect.setCurrentNameE "Unknown", Effect.setCaptionE "",
         Effect.setRelationshipE "", Effect.setPhotoUrlE none,
         Effect.setPhotosCountE none]
        ++ (if ({ initState with lastNameShown := "Alice" } : EngineState).lastStatusRef
              = "searching" then [] else [Effect.setStatusE "searching"])
      ∧ (narrationStep { initState with lastNameShown := "Alice" } 100 none
          FetchResult.httpFail).1.lastStatusRef = "searching"
      ∧ (narrationStep { initState with lastNameShown := "Alice" } 100 none
          FetchResult.httpFail).1.currentName = "Unknown"
      ∧ (narrationStep { initState with lastNameShown := "Alice" } 100 none
          FetchResult.httpFail).1.caption = ""
      ∧ narrationStep (narrationStep { initState with lastNameShown := "Alice" } 100
          none FetchResult.httpFail).1 200 none FetchResult.httpFail
          = ((narrationStep { initState with lastNameShown := "Alice" } 100 none
              FetchResult.httpFail).1, [])
      ∧ narrationStep (narrationStep (narrationStep { initState with
            lastNameShown := "Alice" } 100 none FetchResult.httpFail).1 200 none
            FetchResult.httpFail).1 300 none FetchResult.httpFail
          = ((narrationStep (narrationStep { initState with
              lastNameShown := "Alice" } 100 none FetchResult.httpFail).1 200 none
              FetchResult.httpFail).1, []))
    ∧ safeSetStatus { initState with lastStatusRef := "searching" } "searching"
        = ({ initState with lastStatusRef := "searching" }, [])
    ∧ safeSetStatus initState "searching"
        = ({ initState with lastStatusRef := "searching", status := "searching" },
           [Effect.setStatusE "searching"]) :=
  ⟨searching_resets_once.1 initState 0 env0,
   searching_resets_once.2.1 { initState with lastNameShown := "Alice" } 100 200 300
     FetchResult.httpFail FetchResult.httpFail FetchResult.httpFail (by simp [initState]),
   searching_resets_once.2.2.1 { initState with lastStatusRef := "searching" }
     "searching" rfl,
   searching_resets_once.2.2.2 initState "searching" (by simp [initState])⟩

/-- Frame environment of the C2 scenario (card not mounted, directory
fetch failing, 320×240 sample on a 1280×720 canvas). -/
def envC2 : FrameEnv where
  canvasW := 1280
  canvasH := 720
  sendW := 320
  sendH := 240
  cardW := none
  cardH := none
  styleTop := some 100
  cardPresent := false
  fetchResult := FetchResult.httpFail

/-- A confident "Alice" detection on track 1. -/
def dC2Alice : Detection := ⟨1, ⟨10, 10, 50, 50⟩, "Alice", 9 / 10⟩

/-- A low-confidence unknown-sentinel detection on track 1. -/
def dC2Unk : Detection := ⟨1, ⟨10, 10, 50, 50⟩, "Unknown", 3 / 10⟩

/-- The engine state after applying the frame `[dC2Alice]` at time 0 to
the initial state. -/
def c2s1 : EngineState where
  trackHistory := [(1, ["Alice"])]
  trackState := [(1, ⟨"Alice", 9 / 10, 0⟩)]
  smoothBoxes := [(1, ⟨1040, 30, 200, 150⟩)]
  reqCounter := 0
  lastHandledReq := 0
  lastSpeakAt := 0
  lastNameShown := "Alice"
  cardSide := Side.left
  lastCardYUpdate := 0
  lastFlipAt := 0
  lastStatusRef := "recognized"
  status := "recognized"
  currentName := "Alice"
  confidence := 9 / 10
  caption := ""
  relationship := ""
  photoUrl := none
  photosCount := none

/-- The engine state after then applying the frame `[dC2Unk]` at
time 400. -/
def c2s2 : EngineState where
  trackHistory := [(1, ["Alice", "Unknown"])]
  trackState := [(1, ⟨"Alice", 3 / 10, 400⟩)]
  smoothBoxes := [(1, ⟨1040, 30, 200, 150⟩)]
  reqCounter := 0
  lastHandledReq := 0
  lastSpeakAt := 0
  lastNameShown := "Alice"
  cardSide := Side.left
  lastCardYUpdate := 0
  lastFlipAt := 0
  lastStatusRef := "recognized"
  status := "recognized"
  currentName := "Alice"
  confidence := 9 / 10
  caption := ""
  relationship := ""
  photoUrl := none
  photosCount := none

/-- Unfolding of `processDets` on a one-detection frame: stabilize the
detection, prune, smooth its display box, and run card placement and
narration for it as the best candidate. -/
theorem processDets_singleton (st : EngineState) (now : ℚ) (d : Detection) (env : FrameEnv) :
    processDets st now [d] env =
      narrationStep
        (match bestOf [(stabilizeStep st.trackHistory st.trackState now d).det] with
         | some b =>
            cardAndSnap
              { st with
                trackHistory :=
                  (pruneStale (stabilizeStep st.trackHistory st.trackState now d).tstate
                    (stabilizeStep st.trackHistory st.trackState now d).hist
                    st.smoothBoxes now).2.1
                trackState :=
                  (pruneStale (stabilizeStep st.trackHistory st.trackState now d).tstate
                    (stabilizeStep st.trackHistory st.trackState now d).hist
                    st.smoothBoxes now).1
                smoothBoxes :=
                  (emaBox
                    (pruneStale (stabilizeStep st.trackHistory st.trackState now d).tstate
                      (stabilizeStep st.trackHistory st.trackState now d).hist
                      st.smoothBoxes now).2.2
                    (stabilizeStep st.trackHistory st.trackState now d).det.track_id
                    (renderBoxInput env
                      (stabilizeStep st.trackHistory st.trackState now d).det.bbox)
                    (7 / 20)).2 }
              now env (renderBoxInput env b.bbox) b.name
         | none =>
            { st with
              trackHistory :=
                (pruneStale (stabilizeStep st.trackHistory st.trackState now d).tstate
                  (stabilizeStep st.trackHistory st.trackState now d).hist
                  st.smoothBoxes now).2.1
              trackState :=
                (pruneStale (stabilizeStep st.trackHistory st.trackState now d).tstate
                  (stabilizeStep st.trackHistory st.trackState now d).hist
                  st.smoothBoxes now).1
              smoothBoxes :=
                (emaBox
                  (pruneStale (stabilizeStep st.trackHistory st.trackState now d).tstate
                    (stabilizeStep st.trackHistory st.trackState now d).hist
                    st.smoothBoxes now).2.2
                  (stabilizeStep st.trackHistory st.trackState now d).det.track_id
                  (renderBoxInput env
                    (stabilizeStep st.trackHistory st.trackState now d).det.bbox)
                  (7 / 20)).2 })
        now (bestOf [(stabilizeStep st.trackHistory st.trackState now d).det])
        env.fetchResult := by
  rfl

theorem c2stab1 :
    stabilizeStep initState.trackHistory initState.trackState 0 dC2Alice =
      ⟨[(1, ["Alice"])], [(1, ⟨"Alice", 9 / 10, 0⟩)], dC2Alice⟩ := by
  norm_num [stabilizeStep, histAfter, candidateLabel, majSort, isortBy, insertLe,
    countIn, lookupTrack, setTrack, ACCEPT_CONF, HOLD_MS, MAJ_WIN, initState, dC2Alice,
    List.filter_cons, List.filter_nil]

theorem c2frame1 : (processDets initState 0 [dC2Alice] envC2).1 = c2s1 := by
  rw [processDets_singleton, c2stab1]
  norm_num [bestOf, isortBy, insertLe, pruneStale, STALE_MS, emaBox, lookupTrack,
    setTrack, emaStep, renderBoxInput, scaleBBox, mirrorBBox, cardAndSnap,
    intersectsNow, rectsNear, topNowOf, leftNowOf, cardDims, PAD, SAFE_GAP,
    FLIP_COOLDOWN, narrationStep, safeSetStatus, clearCardEffects, strOr, urlsOf,
    SPEAK_COOLDOWN, initState, c2s1, dC2Alice, envC2,
    List.filter_cons, List.filter_nil]
  simp only [String.reduceEq, reduceIte]

theorem c2stab2 :
    stabilizeStep c2s1.trackHistory c2s1.trackState 400 dC2Unk =
      ⟨[(1, ["Alice", "Unknown"])], [(1, ⟨"Alice", 3 / 10, 400⟩)],
       { dC2Unk with name := "Alice" }⟩ := by
  norm_num [stabilizeStep, histAfter, candidateLabel, majSort, isortBy, insertLe,
    countIn, lookupTrack, setTrack, ACCEPT_CONF, HOLD_MS, MAJ_WIN, c2s1, dC2Unk,
    List.filter_cons, List.filter_nil]
  simp

theorem c2frame2 : (processDets c2s1 400 [dC2Unk] envC2).1 = c2s2 := by
  rw [processDets_singleton, c2stab2]
  norm_num [bestOf, isortBy, insertLe, pruneStale, STALE_MS, emaBox, lookupTrack,
    setTrack, emaStep, renderBoxInput, scaleBBox, mirrorBBox, cardAndSnap,
    intersectsNow, rectsNear, topNowOf, leftNowOf, cardDims, PAD, SAFE_GAP,
    FLIP_COOLDOWN, narrationStep, safeSetStatus, c2s1, c2s2, dC2Unk, envC2,
    List.filter_cons, List.filter_nil]

theorem c2stab3 :
    stabilizeStep c2s2.trackHistory c2s2.trackState 800 dC2Unk =
      ⟨[(1, ["Unknown", "Unknown"])], [(1, ⟨"Alice", 3 / 10, 800⟩)],
       { dC2Unk with name := "Alice" }⟩ := by
  norm_num [stabilizeStep, histAfter, candidateLabel, majSort, isortBy, insertLe,
    countIn, lookupTrack, setTrack, ACCEPT_CONF, HOLD_MS, MAJ_WIN, c2s2, dC2Unk,
    List.filter_cons, List.filter_nil]
  simp

/-- C2 counterexample: starting from the initial state, track 1 reports
"Alice" (confidence 0.9) at time 0 and then only the unknown sentinel
(confidence 0.3) at times 400 and 800 — so `HOLD_MS = 500` has elapsed
after the last non-unknown report with frames continuously reporting
unknown — yet the stabilized entry committed for the frame at time 800 is
still "Alice" (with its hold timestamp refreshed to 800), not the unknown
sentinel the claim requires. -/
theorem hold_never_expires_counterexample :
    lookupTrack (processDets (processDets (processDets initState 0 [dC2Alice] envC2).1
        400 [dC2Unk] envC2).1 800 [dC2Unk] envC2).1.trackState 1
      = some ⟨"Alice", 3 / 10, 800⟩
    ∧ dC2Unk.name = "Unknown"
    ∧ HOLD_MS < 800 - 0
    ∧ ("Alice" : String) ≠ "Unknown" := by
  rw [c2frame1, c2frame2]
  refine ⟨?_, rfl, by norm_num [HOLD_MS], by simp⟩
  rw [processDets_singleton, c2stab3]
  norm_num [bestOf, isortBy, insertLe, pruneStale, STALE_MS, emaBox, lookupTrack,
    setTrack, emaStep, renderBoxInput, scaleBBox, mirrorBBox, cardAndSnap,
    intersectsNow, rectsNear, topNowOf, leftNowOf, cardDims, PAD, SAFE_GAP,
    FLIP_COOLDOWN, narrationStep, safeSetStatus, c2s2, dC2Unk, envC2,
    List.filter_cons, List.filter_nil]

/-- C2 amended: for a track whose stored stable name is non-unknown, an
unknown-candidate frame arriving strictly within `HOLD_MS` of the track's
`lastSeen` keeps the stored name, and the committed entry refreshes
`lastSeen` to the new frame time (held frames included) — so consecutive
unknown frames spaced closer than `HOLD_MS` keep the name indefinitely;
the stabilized output becomes the unknown sentinel exactly on an
unknown-candidate frame arriving `HOLD_MS` or more after the track's
previous frame. -/
theorem hold_refreshes_each_frame :
    ∀ (th : List (Nat × List String)) (ts : List (Nat × TrackEntry)) (now : ℚ)
      (d : Detection) (prev : TrackEntry),
      lookupTrack ts d.track_id = some prev →
      prev.name ≠ "Unknown" →
      candidateLabel (histAfter th d) d = "Unknown" →
      (now - prev.lastSeen < HOLD_MS →
        (stabilizeStep th ts now d).det.name = prev.name
        ∧ lookupTrack (stabilizeStep th ts now d).tstate d.track_id
            = some ⟨prev.name, d.conf, now⟩)
      ∧ (HOLD_MS ≤ now - prev.lastSeen →
        (stabilizeStep th ts now d).det.name = "Unknown"
        ∧ lookupTrack (stabilizeStep th ts now d).tstate d.track_id
            = some ⟨"Unknown", d.conf, now⟩) := by
  intro th ts now d prev hprev hname hcand
  constructor
  · intro hh
    simp [stabilizeStep, hprev, hcand, hname, hh, lookupTrack_setTrack_self]
  · intro hh
    have hnot : ¬ (now - prev.lastSeen < HOLD_MS) := not_lt.mpr hh
    simp [stabilizeStep, hprev, hcand, hname, hnot, lookupTrack_setTrack_self]

theorem hold_refreshes_each_frame_witness :
    ((stabilizeStep [(1, ["Unknown"])] [(1, ⟨"Alice", 9 / 10, 0⟩)] 400 dC2Unk).det.name
        = "Alice"
      ∧ lookupTrack (stabilizeStep [(1, ["Unknown"])] [(1, ⟨"Alice", 9 / 10, 0⟩)]
          400 dC2Unk).tstate 1 = some ⟨"Alice", 3 / 10, 400⟩)
    ∧ ((stabilizeStep [(1, ["Unknown"])] [(1, ⟨"Alice", 9 / 10, 0⟩)] 900 dC2Unk).det.name
        = "Unknown"
      ∧ lookupTrack (stabilizeStep [(1, ["Unknown"])] [(1, ⟨"Alice", 9 / 10, 0⟩)]
          900 dC2Unk).tstate 1 = some ⟨"Unknown", 3 / 10, 900⟩) :=
  ⟨(hold_refreshes_each_frame [(1, ["Unknown"])] [(1, ⟨"Alice", 9 / 10, 0⟩)] 400 dC2Unk
      ⟨"Alice", 9 / 10, 0⟩ rfl (by simp)
      (by norm_num [candidateLabel, histAfter, ACCEPT_CONF, MAJ_WIN, majSort, isortBy,
        insertLe, countIn, lookupTrack, dC2Unk])).1
      (by norm_num [HOLD_MS]),
   (hold_refreshes_each_frame [(1, ["Unknown"])] [(1, ⟨"Alice", 9 / 10, 0⟩)] 900 dC2Unk
      ⟨"Alice", 9 / 10, 0⟩ rfl (by simp)
      (by norm_num [candidateLabel, histAfter, ACCEPT_CONF, MAJ_WIN, majSort, isortBy,
        insertLe, countIn, lookupTrack, dC2Unk])).2
      (by norm_num [HOLD_MS])⟩
